import Mathlib

/-!
Shallow embedding of the OAuth account-linking core of the
jelly-actix-web-starter repository.

Embedded source locations:
* `src/src/accounts/models.rs` — the `Account` / `Identity` rows and
  `Account::merge_identity_and_login` (the four-way linking state machine,
  run inside one sqlx transaction);
* `src/src/oauth/views/authorize.rs` — `validate_inputs` (callback
  validation) and `confirm_identity`;
* `src/src/oauth/views/login.rs` — the login-form GET handler and
  `request_authorization` (session effects);
* `src/jelly/src/oauth/client.rs` — the provider registry
  (`valid_provider`, `client_for`, the per-provider configurations and the
  GitHub user-info decoder `github_de`);
* `src/jelly/src/oauth/mod.rs` — `OAuthFlow`, `UserInfo`, `ScopedClient`.

Modelling conventions: database rows are lists of records, the sqlx
transaction is explicit state passing with commit-on-success, machine
integers are `Int` (all ids stay far from the i32 bounds in every claim),
`now()` is a `Nat` parameter, and fallible operations return `Except` or
`Option`.  The serde JSON deserializer for the GitHub user-info payload is
embedded over a small JSON value type; parsing of the raw byte text and
the syntactic validation done by the external url crate are abstracted
(a string field is accepted wherever the Rust struct holds an
`Option<url::Url>`), which no claim depends on.
-/

namespace Jelly

/-- The session user record jelly::accounts::User (fields as used
throughout src: id, name, is_admin, is_anonymous). -/
structure User where
  id : Int
  name : String
  is_admin : Bool
  is_anonymous : Bool
deriving Repr, DecidableEq

/-- jelly::forms::TextField: we keep the value and the form key. -/
structure TextField where
  value : String
  key : String
deriving Repr, DecidableEq

/-- jelly::forms::EmailField: we keep the value and the form key. -/
structure EmailField where
  value : String
  key : String
deriving Repr, DecidableEq

/-- src/oauth/forms.rs LinkIdentityForm. -/
structure LinkIdentityForm where
  provider : String
  username : String
  name : TextField
  email : EmailField
deriving Repr, DecidableEq

/-- A row of the accounts table, restricted to the columns that
merge_identity_and_login and the other embedded queries read or write
(id, name, email, password, is_admin, last_login).  The remaining
columns (profile, plan, is_active, has_verified_email, created, updated)
are filled by database defaults and never inspected by the embedded
code paths. -/
structure Account where
  id : Int
  name : String
  email : String
  password : Option String
  is_admin : Bool
  last_login : Option Nat
deriving Repr, DecidableEq

/-- A row of the identities table (models.rs struct Identity, minus the
created/updated timestamps which the embedded code never reads). -/
structure Identity where
  id : Int
  account_id : Int
  provider : String
  username : String
  name : Option String
  refresh_token : Option String
deriving Repr, DecidableEq

/-- The persistent database state: the two tables plus the id sequences
backing their SERIAL primary keys. -/
structure DbState where
  accounts : List Account
  identities : List Identity
  nextAccountId : Int
  nextIdentityId : Int
deriving Repr, DecidableEq

/-- Database-level errors surfaced by the embedded queries:
sqlx RowNotFound (fetch_one finding no row), a unique-constraint
violation, and Error::Generic with its message. -/
inductive DbError
  | rowNotFound
  | uniqueViolation
  | generic (msg : String)
deriving Repr, DecidableEq

/-- Modelled from the spec: jelly::NO_PASSWORD, the sentinel "no local
password" marker inserted for pure-OAuth accounts.  The constant itself
lives in the jelly crate root, which is not among the provided sources;
only its role as a fixed sentinel string matters here. -/
def NO_PASSWORD : String := "NoPassword"

/-- The SELECT account_id FROM identities WHERE provider = $1 AND
username = $2 lookup (fetch_optional returns the first matching row). -/
def linkedAccountId (db : DbState) (provider username : String) : Option Int :=
  (db.identities.find? (fun i => i.provider == provider && i.username == username)).map
    (fun i => i.account_id)

/-- The SELECT ... FROM accounts WHERE id = $1 row lookup underlying the
UPDATE ... RETURNING statements (fetch_one returns the first match). -/
def findAccount (db : DbState) (aid : Int) : Option Account :=
  db.accounts.find? (fun a => a.id == aid)

/-- UPDATE accounts SET last_login = now() WHERE id = $1 RETURNING ...;
none models the sqlx RowNotFound error of fetch_one. -/
def updateLastLogin (db : DbState) (aid : Int) (now : Nat) : Option (Account × DbState) :=
  match findAccount db aid with
  | some a =>
      some ({ a with last_login := some now },
        { db with accounts :=
            db.accounts.map (fun b => if b.id == aid then { b with last_login := some now } else b) })
  | none => none

/-- UPDATE accounts SET name = $1, last_login = now() WHERE id = $2
RETURNING ...; none models the sqlx RowNotFound error of fetch_one. -/
def updateNameAndLastLogin (db : DbState) (name : String) (aid : Int) (now : Nat) :
    Option (Account × DbState) :=
  match findAccount db aid with
  | some a =>
      some ({ a with name := name, last_login := some now },
        { db with accounts :=
            db.accounts.map (fun b =>
              if b.id == aid then { b with name := name, last_login := some now } else b) })
  | none => none

/-- INSERT INTO accounts (name, email, password, last_login) VALUES
($1, $2, $3, now()) RETURNING ...; the new row takes the next sequence
id and database defaults for the unlisted columns. -/
def insertAccount (db : DbState) (name email : String) (password : Option String) (now : Nat) :
    Account × DbState :=
  let a : Account :=
    { id := db.nextAccountId, name := name, email := email, password := password,
      is_admin := false, last_login := some now }
  (a, { db with accounts := db.accounts ++ [a], nextAccountId := db.nextAccountId + 1 })

/-- INSERT INTO identities (account_id, provider, username, name,
refresh_token) VALUES ($1, $2, $3, $4, $5) RETURNING id; none models a
violation of the (provider, username) unique constraint. -/
def insertIdentity (db : DbState) (aid : Int) (provider username : String)
    (name refresh_token : Option String) : Option (Int × DbState) :=
  if db.identities.any (fun i => i.provider == provider && i.username == username) then
    none
  else
    let i : Identity :=
      { id := db.nextIdentityId, account_id := aid, provider := provider, username := username,
        name := name, refresh_token := refresh_token }
    some (i.id, { db with identities := db.identities ++ [i],
                          nextIdentityId := db.nextIdentityId + 1 })

/-- The body of Account::merge_identity_and_login, run against the
transactional working state; returning ok corresponds to reaching
tx.commit() with the accumulated writes, returning error corresponds to
any early return, which drops the transaction. -/
def mergeTx (form : LinkIdentityForm) (refresh_token : Option String)
    (current_account_id : Option Int) (now : Nat) (db : DbState) :
    Except DbError (User × DbState) :=
  let linked_account_id := linkedAccountId db form.provider form.username
  match linked_account_id, current_account_id with
  | some linked_id, none =>
      -- linked, no session cookie --> Login
      match updateLastLogin db linked_id now with
      | some (user, db1) =>
          .ok ({ id := user.id, name := user.name, is_admin := user.is_admin,
                 is_anonymous := false }, db1)
      | none => .error .rowNotFound
  | none, none =>
      -- not linked, no session cookie --> Register
      let (user, db1) := insertAccount db form.name.value form.email.value (some NO_PASSWORD) now
      match insertIdentity db1 user.id form.provider form.username (some form.name.value)
          refresh_token with
      | some (_, db2) =>
          .ok ({ id := user.id, name := user.name, is_admin := user.is_admin,
                 is_anonymous := false }, db2)
      | none => .error .uniqueViolation
  | some linked_id, some account_id =>
      -- linked, session cookie present --> Merge (same account) or reject
      if linked_id == account_id then
        match updateNameAndLastLogin db form.name.value account_id now with
        | some (user, db1) =>
            .ok ({ id := user.id, name := user.name, is_admin := user.is_admin,
                   is_anonymous := false }, db1)
        | none => .error .rowNotFound
      else
        .error (.generic "The provider account is linked to a different account")
  | none, some account_id =>
      -- not linked, session cookie present --> Linking Additional account
      match updateLastLogin db account_id now with
      | some (user, db1) =>
          match insertIdentity db1 account_id form.provider form.username (some form.name.value)
              refresh_token with
          | some (_, db2) =>
              .ok ({ id := user.id, name := user.name, is_admin := user.is_admin,
                     is_anonymous := false }, db2)
          | none => .error .uniqueViolation
      | none => .error .rowNotFound

/-- Account::merge_identity_and_login with its transaction semantics: the
working state is committed only when the body returns ok; every error
path leaves the persistent state untouched. -/
def merge_identity_and_login (form : LinkIdentityForm) (refresh_token : Option String)
    (current_account_id : Option Int) (now : Nat) (db : DbState) :
    Except DbError User × DbState :=
  match mergeTx form refresh_token current_account_id now db with
  | .ok (user, db2) => (.ok user, db2)
  | .error e => (.error e, db)

/-- jelly::oauth::OAuthFlow — the per-attempt session record. -/
structure OAuthFlow where
  provider : String
  email : String
  authorization_code : String
  csrf_token_secret : String
  pkce_verifier_secret : String
deriving Repr, DecidableEq

/-- OAuthFlow::set_authorization_code. -/
def OAuthFlow.set_authorization_code (flow : OAuthFlow) (code : String) : OAuthFlow :=
  { flow with authorization_code := code }

/-- The state of the SESSION_OAUTH_FLOW slot, matching the outcome of
session.get::<OAuthFlow>: empty gives Ok(None), stored gives
Ok(Some(flow)), corrupt gives Err (deserialization failure). -/
inductive FlowSlot
  | empty
  | stored (flow : OAuthFlow)
  | corrupt
deriving Repr, DecidableEq

/-- The browser session restricted to the two fixed OAuth keys
(SESSION_OAUTH_FLOW and SESSION_OAUTH_TOKEN). -/
structure Session where
  oauth_flow : FlowSlot
  oauth_token : Option String
deriving Repr, DecidableEq

/-- The callback query string (struct AuthRequest in authorize.rs). -/
structure AuthRequest where
  code : Option String
  state : Option String
  error : Option String
deriving Repr, DecidableEq

/-- The jelly OAuthError variants, as used by the sources under src
(the enum itself is declared in the jelly error module, which is not
among the provided sources; variant names and payloads are taken from
their construction sites in src). -/
inductive OAuthError
  | ParseSessionError
  | ParseRequestError
  | VerifyStateError
  | GrantAuthorizationError (msg : String)
  | RegisterProviderError (provider : String)
  | GrantTokenError
  | FetchProfileError
  | DecodeProfileError
deriving Repr, DecidableEq

/-- Tag standing for the per-provider user_info_de function pointer. -/
inductive UserInfoDecoder
  | google
  | twitter
  | github
deriving Repr, DecidableEq

/-- jelly::oauth::ScopedClient: the BasicClient configuration (client
credentials, endpoint URLs, redirect URI) flattened together with the
user-info metadata. -/
structure ScopedClient where
  client_id : String
  client_secret : Option String
  auth_url : String
  token_url : String
  revoke_url : Option String
  redirect_uri : String
  scopes : List String
  login_hint_key : Option String
  user_info_uri : String
  user_info_params : List (String × String)
  user_info_headers : List (String × String)
  user_info_de : UserInfoDecoder
deriving Repr, DecidableEq

/-- jelly::oauth::ClientFlow. -/
structure ClientFlow where
  client : ScopedClient
  flow : OAuthFlow
deriving Repr, DecidableEq

/-- validate_inputs of src/oauth/views/authorize.rs.  The global
client_for registry call is passed in as the resolve parameter.  The
function returns the validation result together with the session after
its unconditional removal of both OAuth keys. -/
def validate_inputs (resolve : String → Option ScopedClient) (session : Session)
    (query : AuthRequest) : Except OAuthError ClientFlow × Session :=
  let maybe_flow := session.oauth_flow
  let session2 : Session := { oauth_flow := .empty, oauth_token := none }
  let result : Except OAuthError ClientFlow :=
    match maybe_flow with
    | .stored flow =>
        match query.error with
        | some e => .error (.GrantAuthorizationError e)
        | none =>
            match query.state, query.code with
            | some state, some auth_code =>
                if state == flow.csrf_token_secret then
                  match resolve flow.provider with
                  | some client =>
                      .ok { client := client, flow := flow.set_authorization_code auth_code }
                  | none => .error .ParseSessionError
                else
                  .error .VerifyStateError
            | _, _ => .error .ParseRequestError
    | _ => .error .ParseSessionError
  (result, session2)

/-- Session effect of the GET login-form handler (form in
src/oauth/views/login.rs): when the caller is already authenticated it
redirects without touching the session; otherwise it removes the
SESSION_OAUTH_FLOW key and renders the form. -/
def oauthLoginFormView (authenticated : Bool) (session : Session) : Session :=
  if authenticated then session
  else { session with oauth_flow := .empty }

/-- Session effect of request_authorization in src/oauth/views/login.rs:
the new flow built from the provider, the email hint and the freshly
generated CSRF and PKCE secrets is stored under SESSION_OAUTH_FLOW
(randomness generation and the redirect URL are outside the session). -/
def request_authorization (provider email csrf_secret pkce_secret : String)
    (session : Session) : Session :=
  { session with
      oauth_flow := .stored
        { provider := provider, email := email, authorization_code := "",
          csrf_token_secret := csrf_secret, pkce_verifier_secret := pkce_secret } }

/-- jelly::oauth::ProviderHints. -/
structure ProviderHints where
  uses_email_hint : Bool
deriving Repr, DecidableEq

/-- The static LOGIN_HINTS registry contents (build_hints in
jelly/src/oauth/client.rs). -/
def build_hints : List (String × ProviderHints) :=
  [("google", { uses_email_hint := true }),
   ("twitter", { uses_email_hint := false }),
   ("github", { uses_email_hint := false })]

/-- valid_provider in jelly/src/oauth/client.rs. -/
def valid_provider (provider : String) : Bool :=
  build_hints.any (fun kv => kv.1 == provider)

/-- provider_hints in jelly/src/oauth/client.rs. -/
def provider_hints (provider : String) : Option ProviderHints :=
  (build_hints.find? (fun kv => kv.1 == provider)).map (fun kv => kv.2)

/-- struct ClientConfig of jelly/src/oauth/client.rs. -/
structure ClientConfig where
  redirect_uri : String
  client_id_env : String
  client_secret_env : Option String
  auth_url : String
  token_url : String
  revoke_url : Option String
  scopes : List String
  login_hint_key : Option String
  user_info_uri : String
  user_info_params : List (String × String)
  user_info_headers : List (String × String)
  user_info_de : UserInfoDecoder
deriving Repr, DecidableEq

/-- build_client in jelly/src/oauth/client.rs, before the
build_generic_oauth mapping: the three static provider configurations. -/
def build_client_config (provider : String) (redirect_uri : String) : Option ClientConfig :=
  match provider with
  | "google" => some
      { redirect_uri := redirect_uri,
        client_id_env := "GOOGLE_CLIENT_ID",
        client_secret_env := some "GOOGLE_CLIENT_SECRET",
        auth_url := "https://accounts.google.com/o/oauth2/v2/auth",
        token_url := "https://oauth2.googleapis.com/token",
        revoke_url := some "https://oauth2.googleapis.com/revoke",
        scopes := ["https://www.googleapis.com/auth/userinfo.email",
                   "https://www.googleapis.com/auth/userinfo.profile"],
        login_hint_key := some "login_hint",
        user_info_uri := "https://www.googleapis.com/oauth2/v3/userinfo",
        user_info_params := [],
        user_info_headers := [("Accept", "application/json")],
        user_info_de := .google }
  | "twitter" => some
      { redirect_uri := redirect_uri,
        client_id_env := "TWITTER_CLIENT_ID",
        client_secret_env := none,
        auth_url := "https://twitter.com/i/oauth2/authorize",
        token_url := "https://api.twitter.com/2/oauth2/token",
        revoke_url := some "https://api.twitter.com/2/oauth2/revoke",
        scopes := ["tweet.read", "users.read"],
        login_hint_key := none,
        user_info_uri := "https://api.twitter.com/2/users/me",
        user_info_params := [("user.fields",
          "id,name,username,verified,url,profile_image_url")],
        user_info_headers := [("Accept", "application/json")],
        user_info_de := .twitter }
  | "github" => some
      { redirect_uri := redirect_uri,
        client_id_env := "GITHUB_CLIENT_ID",
        client_secret_env := some "GITHUB_CLIENT_SECRET",
        auth_url := "https://github.com/login/oauth/authorize",
        token_url := "https://github.com/login/oauth/access_token",
        revoke_url := some "https://api.twitter.com/2/oauth2/revoke",
        scopes := ["read:user"],
        login_hint_key := some "login",
        user_info_uri := "https://api.github.com/user",
        user_info_params := [],
        user_info_headers := [("Accept", "application/vnd.github.v3+json"),
                              ("User-Agent", "Zingg-Starter-App")],
        user_info_de := .github }
  | _ => none

/-- build_generic_oauth: resolves the environment credentials and builds
the ScopedClient.  The environment is passed in as a total map; the Rust
code aborts the process (expect) when a required variable is missing,
a failure mode outside this embedding. -/
def build_generic_oauth (env : String → String) (cfg : ClientConfig) : ScopedClient :=
  { client_id := env cfg.client_id_env,
    client_secret := cfg.client_secret_env.map env,
    auth_url := cfg.auth_url,
    token_url := cfg.token_url,
    revoke_url := cfg.revoke_url,
    redirect_uri := cfg.redirect_uri,
    scopes := cfg.scopes,
    login_hint_key := cfg.login_hint_key,
    user_info_uri := cfg.user_info_uri,
    user_info_params := cfg.user_info_params,
    user_info_headers := cfg.user_info_headers,
    user_info_de := cfg.user_info_de }

/-- build_client = the static configuration mapped through
build_generic_oauth. -/
def build_client (env : String → String) (provider : String) (redirect_uri : String) :
    Option ScopedClient :=
  (build_client_config provider redirect_uri).map (build_generic_oauth env)

/-- The CLIENTS cache (HashMap<String, Option<ScopedClient>>), modelled
as an association list with first-match lookup. -/
def ClientMap : Type := List (String × Option ScopedClient)

/-- HashMap::contains_key. -/
def mapContains (m : ClientMap) (k : String) : Bool :=
  m.any (fun kv => kv.1 == k)

/-- HashMap::get. -/
def mapGet (m : ClientMap) (k : String) : Option (Option ScopedClient) :=
  (m.find? (fun kv => kv.1 == k)).map (fun kv => kv.2)

/-- HashMap::insert (replace the binding when the key is present,
otherwise add it). -/
def mapInsert (m : ClientMap) (k : String) (v : Option ScopedClient) : ClientMap :=
  if mapContains m k then
    m.map (fun kv => if kv.1 == k then (k, v) else kv)
  else
    (k, v) :: m

/-- client_for in jelly/src/oauth/client.rs.  The global mutex-guarded
cache is threaded explicitly; the environment is the env parameter and
the JELLY_DOMAIN variable provides the root domain of the fixed
redirect URI. -/
def client_for (env : String → String) (provider : String) (cache : ClientMap) :
    Option ScopedClient × ClientMap :=
  if valid_provider provider then
    let cache1 :=
      if mapContains cache provider then cache
      else
        let root_domain := env "JELLY_DOMAIN"
        let redirect_uri := root_domain ++ "/oauth/callback/"
        mapInsert cache provider (build_client env provider redirect_uri)
    match mapGet cache1 provider with
    | some (some client) => (some client, cache1)
    | _ => (none, cache1)
  else
    (none, cache)

/-- jelly::oauth::UserInfo, the normalized provider-agnostic shape. -/
structure UserInfo where
  provider : String
  id : String
  name : String
  username : String
  login_email : String
  provider_email : Option String
deriving Repr, DecidableEq

/-- A JSON value, the input of the embedded serde deserializers. -/
inductive Json
  | null
  | bool (b : Bool)
  | num (n : Int)
  | str (s : String)
  | arr (items : List Json)
  | obj (fields : List (String × Json))

/-- Field lookup in a JSON object (first match). -/
def jsonGet (fields : List (String × Json)) (key : String) : Option Json :=
  (fields.find? (fun kv => kv.1 == key)).map (fun kv => kv.2)

/-- serde: a required String field. -/
def reqStr (fields : List (String × Json)) (key : String) : Except String String :=
  match jsonGet fields key with
  | some (.str s) => .ok s
  | some _ => .error ("invalid type for field " ++ key)
  | none => .error ("missing field " ++ key)

/-- serde: a required i32 field (a JSON integer within the i32 range). -/
def reqI32 (fields : List (String × Json)) (key : String) : Except String Int :=
  match jsonGet fields key with
  | some (.num n) =>
      if -2147483648 ≤ n ∧ n ≤ 2147483647 then .ok n
      else .error ("number out of range for field " ++ key)
  | some _ => .error ("invalid type for field " ++ key)
  | none => .error ("missing field " ++ key)

/-- serde: an Option String field — absent or null give none. -/
def optStr (fields : List (String × Json)) (key : String) : Except String (Option String) :=
  match jsonGet fields key with
  | none => .ok none
  | some .null => .ok none
  | some (.str s) => .ok (some s)
  | some _ => .error ("invalid type for field " ++ key)

/-- struct GithubUserInfo of jelly/src/oauth/client.rs: id is a required
i32, name and login are required strings, email is optional; html_url is
an Option of a parsed URL, whose syntactic URL check is abstracted here
(any string accepted). -/
structure GithubUserInfo where
  id : Int
  name : String
  login : String
  email : Option String
  html_url : Option String
deriving Repr, DecidableEq

/-- serde deserialization of GithubUserInfo from a JSON value (unknown
fields are ignored, the serde default for this struct). -/
def decodeGithubUserInfo (j : Json) : Except String GithubUserInfo :=
  match j with
  | .obj fields => do
      let id ← reqI32 fields "id"
      let name ← reqStr fields "name"
      let login ← reqStr fields "login"
      let email ← optStr fields "email"
      let html_url ← optStr fields "html_url"
      .ok { id := id, name := name, login := login, email := email, html_url := html_url }
  | _ => .error "invalid type: expected struct GithubUserInfo"

/-- impl From GithubUserInfo for UserInfo. -/
def githubToUserInfo (github : GithubUserInfo) : UserInfo :=
  { provider := "github",
    id := toString github.id,
    name := github.name,
    username := github.login,
    login_email := "",
    provider_email := github.email }

/-- set_email in jelly/src/oauth/client.rs. -/
def set_email (ui : UserInfo) (email : String) : UserInfo :=
  { ui with login_email := email }

/-- github_de in jelly/src/oauth/client.rs, over an already-parsed JSON
value in place of the raw response text. -/
def github_de (json_body : Json) (email : String) : Except String UserInfo :=
  (decodeGithubUserInfo json_body).map githubToUserInfo |>.map (fun ui => set_email ui email)

/-- Account::id_by_email (SELECT id FROM accounts WHERE email = $1,
fetch_one: first matching row, or RowNotFound). -/
def id_by_email (email : String) (db : DbState) : Except DbError Int :=
  match db.accounts.find? (fun a => a.email == email) with
  | some a => .ok a.id
  | none => .error .rowNotFound

/-- Outcome of the confirm_identity handler: the 400 re-render for an
invalid form, the redirect to /dashboard/ carrying the authenticated
user, or the 400 re-render after a merge failure. -/
inductive ConfirmOutcome
  | invalidForm
  | success (user : User)
  | renderError
deriving Repr, DecidableEq

/-- confirm_identity of src/oauth/views/authorize.rs.  formValid stands
for form.is_valid() (the generic field validation, defined in the jelly
forms validation module); sessionUser is request.user(), session carries
the SESSION_OAUTH_TOKEN refresh token, and the database pool is the
explicit db state. -/
def confirm_identity (formValid : Bool) (form : LinkIdentityForm) (sessionUser : User)
    (session : Session) (now : Nat) (db : DbState) : ConfirmOutcome × DbState :=
  if !formValid then
    (.invalidForm, db)
  else
    let refresh_token := session.oauth_token
    let account_id : Option Int :=
      if sessionUser.is_anonymous then (id_by_email form.email.value db).toOption
      else some sessionUser.id
    match merge_identity_and_login form refresh_token account_id now db with
    | (.ok user, db2) => (.success user, db2)
    | (.error _, db2) => (.renderError, db2)

/-- Concrete form input shared by the C1 theorems. -/
def c1Form : LinkIdentityForm :=
  { provider := "github", username := "u", name := { value := "NewName", key := "" },
    email := { value := "e@x.com", key := "" } }

/-- Concrete database state shared by the C1 theorems: the identity
(github, u) is linked to account 1, and account 2 also exists. -/
def c1Db : DbState :=
  { accounts :=
      [{ id := 1, name := "One", email := "one@x.com", password := some "h1",
         is_admin := false, last_login := none },
       { id := 2, name := "Two", email := "two@x.com", password := some "h2",
         is_admin := false, last_login := none }],
    identities :=
      [{ id := 1, account_id := 1, provider := "github", username := "u",
         name := none, refresh_token := none }],
    nextAccountId := 3, nextIdentityId := 2 }

/-- Concrete form input for the C5 witness. -/
def c5Form : LinkIdentityForm :=
  { provider := "twitter", username := "tw", name := { value := "Tee", key := "" },
    email := { value := "t@x.com", key := "" } }

/-- Concrete empty database for the C5 witness. -/
def c5Db : DbState :=
  { accounts := [], identities := [], nextAccountId := 1, nextIdentityId := 1 }

/-- Concrete form input for the C9 witness. -/
def c9Form : LinkIdentityForm :=
  { provider := "github", username := "octocat", name := { value := "Octo", key := "" },
    email := { value := "owner@x.com", key := "" } }

/-- Concrete existing account for the C9 witness, carrying the email that
the C9 form confirms. -/
def c9Acct : Account :=
  { id := 5, name := "Owner", email := "owner@x.com", password := some "pw",
    is_admin := false, last_login := none }

/-- Concrete database for the C9 witness. -/
def c9Db : DbState :=
  { accounts := [c9Acct], identities := [], nextAccountId := 6, nextIdentityId := 1 }

/-- Concrete anonymous session user for the C9 witness. -/
def c9User : User :=
  { id := 0, name := "", is_admin := false, is_anonymous := true }

/-- Concrete session for the C9 witness. -/
def c9Sess : Session :=
  { oauth_flow := .empty, oauth_token := some "refreshtok" }

/-- Concrete flow for the C2 witness. -/
def c2Flow : OAuthFlow :=
  { provider := "github", email := "e@x.com", authorization_code := "",
    csrf_token_secret := "CSRFSECRET", pkce_verifier_secret := "PKCE" }

end Jelly

open Jelly

/-- Helper: a find?-miss on the identities table gives an any-miss for
the same predicate (used to discharge the unique-constraint test of
insertIdentity on the Register and Link-Additional paths). -/
lemma identities_any_eq_false {db : DbState} {p u : String}
    (h : linkedAccountId db p u = none) :
    db.identities.any (fun i => i.provider == p && i.username == u) = false := by
  unfold linkedAccountId at h
  rw [Option.map_eq_none'] at h
  rw [List.any_eq_false]
  rw [List.find?_eq_none] at h
  exact h

/-- Helper: the last_login update rewrites rows in place, so the list of
account ids is unchanged. -/
lemma accounts_map_id_last_login (l : List Account) (aid : Int) (now : Nat) :
    (l.map (fun b => if b.id == aid then { b with last_login := some now } else b)).map
        Account.id = l.map Account.id := by
  induction l with
  | nil => rfl
  | cons a t ih =>
      simp only [List.map_cons, ih, List.cons.injEq, and_true]
      by_cases h : (a.id == aid) = true
      · simp [h]
      · simp [h]

/-- Helper: characterization of the Login branch (linked identity, no
current account). -/
lemma merge_login_branch (form : LinkIdentityForm) (rt : Option String) (now : Nat)
    (db : DbState) (lid : Int) (y : Account)
    (hlk : linkedAccountId db form.provider form.username = some lid)
    (hyf : findAccount db lid = some y) :
    merge_identity_and_login form rt none now db =
      (.ok { id := y.id, name := y.name, is_admin := y.is_admin, is_anonymous := false },
       { db with accounts := db.accounts.map (fun b =>
           if b.id == lid then { b with last_login := some now } else b) }) := by
  simp [merge_identity_and_login, mergeTx, hlk, updateLastLogin, hyf]

/-- Helper: characterization of the Register branch (unlinked identity,
no current account). -/
lemma merge_register_branch (form : LinkIdentityForm) (rt : Option String) (now : Nat)
    (db : DbState)
    (h : linkedAccountId db form.provider form.username = none) :
    merge_identity_and_login form rt none now db =
      (.ok { id := db.nextAccountId, name := form.name.value, is_admin := false,
             is_anonymous := false },
       { accounts := db.accounts ++
           [{ id := db.nextAccountId, name := form.name.value, email := form.email.value,
              password := some NO_PASSWORD, is_admin := false, last_login := some now }],
         identities := db.identities ++
           [{ id := db.nextIdentityId, account_id := db.nextAccountId,
              provider := form.provider, username := form.username,
              name := some form.name.value, refresh_token := rt }],
         nextAccountId := db.nextAccountId + 1,
         nextIdentityId := db.nextIdentityId + 1 }) := by
  have hany := identities_any_eq_false h
  simp [merge_identity_and_login, mergeTx, h, insertAccount, insertIdentity, hany]

/-- Helper: characterization of the Merge branch (identity linked to the
current account itself). -/
lemma merge_merge_branch (form : LinkIdentityForm) (rt : Option String) (now : Nat)
    (db : DbState) (lid : Int) (y : Account)
    (hlk : linkedAccountId db form.provider form.username = some lid)
    (hyf : findAccount db lid = some y) :
    merge_identity_and_login form rt (some lid) now db =
      (.ok { id := y.id, name := form.name.value, is_admin := y.is_admin,
             is_anonymous := false },
       { db with accounts := db.accounts.map (fun b =>
           if b.id == lid then { b with name := form.name.value, last_login := some now }
           else b) }) := by
  simp [merge_identity_and_login, mergeTx, hlk, updateNameAndLastLogin, hyf]

/-- Helper: characterization of the Link-Additional branch (unlinked
identity, current account present). -/
lemma merge_link_branch (form : LinkIdentityForm) (rt : Option String) (now : Nat)
    (db : DbState) (aid : Int) (y : Account)
    (hlk : linkedAccountId db form.provider form.username = none)
    (hyf : findAccount db aid = some y) :
    merge_identity_and_login form rt (some aid) now db =
      (.ok { id := y.id, name := y.name, is_admin := y.is_admin, is_anonymous := false },
       { db with
           accounts := db.accounts.map (fun b =>
             if b.id == aid then { b with last_login := some now } else b),
           identities := db.identities ++
             [{ id := db.nextIdentityId, account_id := aid, provider := form.provider,
                username := form.username, name := some form.name.value,
                refresh_token := rt }],
           nextIdentityId := db.nextIdentityId + 1 }) := by
  have hany := identities_any_eq_false hlk
  simp [merge_identity_and_login, mergeTx, hlk, updateLastLogin, hyf, insertIdentity, hany]

/-- Helper: characterization of the Reject outcome (identity linked to a
different account than the current one). -/
lemma merge_reject_branch (form : LinkIdentityForm) (rt : Option String) (now : Nat)
    (db : DbState) (lid aid : Int)
    (hlk : linkedAccountId db form.provider form.username = some lid)
    (hne : lid ≠ aid) :
    merge_identity_and_login form rt (some aid) now db =
      (.error (.generic "The provider account is linked to a different account"), db) := by
  have hbeq : (lid == aid) = false := beq_eq_false_iff_ne.mpr hne
  unfold merge_identity_and_login mergeTx
  simp only [hlk, hbeq, Bool.false_eq_true, if_false]

/-- Helper: a membership witness with the right id makes the find?-by-id
lookup succeed, and any row it returns carries that id. -/
lemma find_by_id_exists (l : List Account) (aid : Int) (a : Account)
    (ha : a ∈ l) (hid : a.id = aid) :
    ∃ y, l.find? (fun b => b.id == aid) = some y ∧ y.id = aid := by
  have hs : (l.find? (fun b => b.id == aid)).isSome := by
    rw [List.find?_isSome]
    exact ⟨a, ha, by simp [hid]⟩
  obtain ⟨y, hy⟩ := Option.isSome_iff_exists.mp hs
  have hp := List.find?_some (p := fun b => b.id == aid) (a := y) (l := l) hy
  simp at hp
  exact ⟨y, hy, hp⟩

/-- Helper: every transaction body success carries a non-anonymous user. -/
lemma mergeTx_ok_is_anonymous (form : LinkIdentityForm) (rt : Option String)
    (cur : Option Int) (now : Nat) (db : DbState) (u : User) (db2 : DbState)
    (htx : mergeTx form rt cur now db = .ok (u, db2)) :
    u.is_anonymous = false := by
  unfold mergeTx at htx
  cases cur with
  | none =>
      cases hlk : linkedAccountId db form.provider form.username with
      | none =>
          simp only [hlk] at htx
          repeat' split at htx
          all_goals (try simp_all)
          all_goals (obtain ⟨hu, h2⟩ := htx
                     rw [← hu])
      | some lid =>
          simp only [hlk] at htx
          repeat' split at htx
          all_goals (try simp_all)
          all_goals (obtain ⟨hu, h2⟩ := htx
                     rw [← hu])
  | some aid =>
      cases hlk : linkedAccountId db form.provider form.username with
      | none =>
          simp only [hlk] at htx
          repeat' split at htx
          all_goals (try simp_all)
          all_goals (obtain ⟨hu, h2⟩ := htx
                     rw [← hu])
      | some lid =>
          simp only [hlk] at htx
          repeat' split at htx
          all_goals (try simp_all)
          all_goals (obtain ⟨hu, h2⟩ := htx
                     rw [← hu])

/-- Helper: every successful merge returns a non-anonymous user. -/
lemma merge_ok_is_anonymous (form : LinkIdentityForm) (rt : Option String)
    (cur : Option Int) (now : Nat) (db : DbState) (u : User) (db2 : DbState)
    (hm : merge_identity_and_login form rt cur now db = (.ok u, db2)) :
    u.is_anonymous = false := by
  unfold merge_identity_and_login at hm
  cases htx : mergeTx form rt cur now db with
  | error e => rw [htx] at hm; simp at hm
  | ok v =>
      obtain ⟨uv, dbv⟩ := v
      rw [htx] at hm
      simp only [Prod.mk.injEq, Except.ok.injEq] at hm
      obtain ⟨hu, hdb⟩ := hm
      subst hu
      exact mergeTx_ok_is_anonymous form rt cur now db uv dbv htx

/-- Helper: after inserting a binding for a key, the cache contains that
key. -/
lemma mapContains_mapInsert_self (m : ClientMap) (k : String) (v : Option ScopedClient) :
    mapContains (mapInsert m k v) k = true := by
  unfold mapInsert
  by_cases h : mapContains m k
  · simp only [h, if_true]
    unfold mapContains at h ⊢
    rw [List.any_map]
    rw [List.any_eq_true] at h ⊢
    obtain ⟨x, hx, hpx⟩ := h
    refine ⟨x, hx, ?_⟩
    simp [Function.comp, hpx]
  · rw [if_neg h]
    simp [mapContains, List.any_cons]

/-- C4: validate_inputs deletes the session flow (and refresh-token) key
unconditionally, before the validation outcome is determined, so a second
callback invocation on the resulting session always fails with
ParseSessionError and a given flow object is consumed at most once. -/
theorem c4_flow_one_shot (resolve : String → Option ScopedClient) (s : Session)
    (q q2 : AuthRequest) :
    (validate_inputs resolve s q).2.oauth_flow = .empty ∧
    (validate_inputs resolve s q).2.oauth_token = none ∧
    (validate_inputs resolve ((validate_inputs resolve s q).2) q2).1 =
      .error .ParseSessionError :=
  ⟨rfl, rfl, rfl⟩

/-- C8 counterexample: a fresh login initiation (the GET form handler for
an unauthenticated caller) leaves a stale refresh-token session entry in
place, contradicting the claim that it is cleared there. -/
theorem c8_counterexample :
    (oauthLoginFormView false { oauth_flow := .empty, oauth_token := some "stale-token"
      }).oauth_token = some "stale-token" := rfl

/-- C8 amended: a fresh login initiation clears only the flow session
entry and leaves the refresh-token entry untouched (the POST handler then
stores the new flow, also leaving the token untouched); the refresh-token
entry is instead removed unconditionally at callback validation. -/
theorem c8_amended_login_initiation (s : Session) (provider email csrf pkce : String)
    (resolve : String → Option ScopedClient) (q : AuthRequest) :
    (oauthLoginFormView false s).oauth_flow = .empty ∧
    (oauthLoginFormView false s).oauth_token = s.oauth_token ∧
    (request_authorization provider email csrf pkce s).oauth_token = s.oauth_token ∧
    (request_authorization provider email csrf pkce s).oauth_flow =
      .stored { provider := provider, email := email, authorization_code := "",
                csrf_token_secret := csrf, pkce_verifier_secret := pkce } ∧
    (validate_inputs resolve s q).2.oauth_token = none :=
  ⟨rfl, rfl, rfl, rfl, rfl⟩

/-- C10: with a flow in the session and no provider error parameter,
callback validation returns ParseRequestError whenever either of state or
code is absent, and the CSRF comparison is reached only when both are
present (the result is then never ParseRequestError, and differs by the
comparison alone). -/
theorem c10_missing_state_or_code (resolve : String → Option ScopedClient) (s : Session)
    (q : AuthRequest) (flow : OAuthFlow)
    (hf : s.oauth_flow = .stored flow) (he : q.error = none) :
    ((q.state = none ∨ q.code = none) →
        (validate_inputs resolve s q).1 = .error .ParseRequestError) ∧
    (∀ st c, q.state = some st → q.code = some c →
        (validate_inputs resolve s q).1 ≠ .error .ParseRequestError ∧
        (st ≠ flow.csrf_token_secret →
          (validate_inputs resolve s q).1 = .error .VerifyStateError)) := by
  constructor
  · rintro (h | h)
    · cases hc : q.code <;> simp [validate_inputs, hf, he, h, hc]
    · cases hs : q.state <;> simp [validate_inputs, hf, he, h, hs]
  · intro st c hst hc
    constructor
    · by_cases heq : st = flow.csrf_token_secret
      · cases hr : resolve flow.provider <;>
          simp [validate_inputs, hf, he, hst, hc, heq, hr]
      · simp [validate_inputs, hf, he, hst, hc, heq]
    · intro hne
      simp [validate_inputs, hf, he, hst, hc, hne]

/-- C10 witness: concrete callback with the state parameter present but
the code parameter absent fails with ParseRequestError. -/
theorem c10_witness :
    (validate_inputs (fun _ => none)
        { oauth_flow := .stored c2Flow, oauth_token := some "t" }
        { code := none, state := some "CSRFSECRET", error := none }).1 =
      .error .ParseRequestError :=
  (c10_missing_state_or_code (fun _ => none)
      { oauth_flow := .stored c2Flow, oauth_token := some "t" }
      { code := none, state := some "CSRFSECRET", error := none }
      c2Flow rfl rfl).1 (Or.inr rfl)

/-- C6: client_for is idempotent over the cache state — a second call for
the same provider key returns an identically configured client and leaves
the cache unchanged (the client is built at most once) — and for every
input string outside the static registry (exactly google, twitter,
github) it returns none without touching the cache. -/
theorem c6_client_for_registry (env : String → String) (provider : String) (cache : ClientMap) :
    ((client_for env provider ((client_for env provider cache).2)).1 =
        (client_for env provider cache).1 ∧
      (client_for env provider ((client_for env provider cache).2)).2 =
        (client_for env provider cache).2) ∧
    (valid_provider provider = false → client_for env provider cache = (none, cache)) ∧
    valid_provider provider =
      (("google" == provider) || ("twitter" == provider) || ("github" == provider)) := by
  refine ⟨?_, ?_, ?_⟩
  · cases hv : valid_provider provider with
    | false => constructor <;> simp [client_for, hv]
    | true =>
        have hkey : ∀ m : ClientMap, mapContains m provider = true →
            client_for env provider m =
              (match mapGet m provider with
                | some (some client) => (some client, m)
                | _ => (none, m)) := by
          intro m hm
          simp only [client_for, hv, if_true, hm]
        set c1 : ClientMap := (if mapContains cache provider then cache
          else mapInsert cache provider
            (build_client env provider (env "JELLY_DOMAIN" ++ "/oauth/callback/"))) with hc1
        have hfirst : client_for env provider cache =
            (match mapGet c1 provider with
              | some (some client) => (some client, c1)
              | _ => (none, c1)) := by
          simp only [client_for, hv, if_true, hc1]
        have hcont : mapContains c1 provider = true := by
          rw [hc1]
          by_cases hm : mapContains cache provider
          · simp [hm]
          · rw [if_neg hm]
            exact mapContains_mapInsert_self cache provider _
        have hsnd : (client_for env provider cache).2 = c1 := by
          rw [hfirst]
          rcases mapGet c1 provider with _ | (_ | c) <;> rfl
        have hfst : (client_for env provider cache).1 =
            (match mapGet c1 provider with
              | some (some client) => some client
              | _ => none) := by
          rw [hfirst]
          rcases mapGet c1 provider with _ | (_ | c) <;> rfl
        rw [hsnd, hkey c1 hcont, hfst]
        constructor
        · rcases mapGet c1 provider with _ | (_ | c) <;> rfl
        · rcases mapGet c1 provider with _ | (_ | c) <;> rfl
  · intro h
    simp [client_for, h]
  · simp [valid_provider, build_hints]
    rw [Bool.or_assoc]

/-- C6 witness: two consecutive google lookups starting from the empty
cache agree in client and cache, and the unsupported key yahoo resolves
to nothing and leaves the cache untouched. -/
theorem c6_witness :
    ((client_for (fun v => v) "google" ((client_for (fun v => v) "google" []).2)).1 =
        (client_for (fun v => v) "google" []).1 ∧
      (client_for (fun v => v) "google" ((client_for (fun v => v) "google" []).2)).2 =
        (client_for (fun v => v) "google" []).2) ∧
    client_for (fun v => v) "yahoo" [] = (none, []) :=
  ⟨(c6_client_for_registry (fun v => v) "google" []).1,
   (c6_client_for_registry (fun v => v) "yahoo" []).2.1 (by decide)⟩

/-- C3: merge_identity_and_login is transactional — on every error the
committed state is exactly the initial state (no partial writes
persist) — and when the (provider, username) identity is linked to an
account different from current_account_id the call fails with the
"linked to a different account" generic error and performs no writes. -/
theorem c3_transaction_rollback (form : LinkIdentityForm) (rt : Option String)
    (cur : Option Int) (now : Nat) (db : DbState) :
    (∀ e, (merge_identity_and_login form rt cur now db).1 = .error e →
        (merge_identity_and_login form rt cur now db).2 = db) ∧
    (∀ lid aid, linkedAccountId db form.provider form.username = some lid →
        cur = some aid → lid ≠ aid →
        merge_identity_and_login form rt cur now db =
          (.error (.generic "The provider account is linked to a different account"), db)) := by
  constructor
  · intro e he
    unfold merge_identity_and_login at he ⊢
    cases h : mergeTx form rt cur now db with
    | ok v => rw [h] at he; simp at he
    | error e2 => simp [h]
  · intro lid aid hlk hcur hne
    subst hcur
    exact merge_reject_branch form rt now db lid aid hlk hne

/-- C3 witness: in the concrete C1 state, where (github, u) is linked to
account 1, a merge attempted with current account 2 is rejected with the
generic error and the database is returned unchanged. -/
theorem c3_witness :
    merge_identity_and_login c1Form none (some 2) 7 c1Db =
      (.error (.generic "The provider account is linked to a different account"), c1Db) :=
  (c3_transaction_rollback c1Form none (some 2) 7 c1Db).2 1 2 (by decide) rfl (by decide)

/-- C5: with no current account and an unlinked (provider, username),
the first merge_identity_and_login call takes the Register branch,
creating exactly one account row (with the fresh sequence id) and one
identity row; a second call with the same inputs takes the Login branch,
creates no new rows, and returns the same account id. -/
theorem c5_register_then_login (form : LinkIdentityForm) (rt : Option String)
    (now1 now2 : Nat) (db : DbState)
    (h : linkedAccountId db form.provider form.username = none) :
    ∃ u1 db1 u2 db2,
      merge_identity_and_login form rt none now1 db = (.ok u1, db1) ∧
      u1.id = db.nextAccountId ∧
      db1.accounts.length = db.accounts.length + 1 ∧
      db1.identities.length = db.identities.length + 1 ∧
      merge_identity_and_login form rt none now2 db1 = (.ok u2, db2) ∧
      u2.id = u1.id ∧
      db2.identities = db1.identities ∧
      db2.accounts.length = db1.accounts.length ∧
      db2.accounts.map Account.id = db1.accounts.map Account.id := by
  have hfind : db.identities.find?
      (fun i => i.provider == form.provider && i.username == form.username) = none := by
    unfold linkedAccountId at h
    exact Option.map_eq_none'.mp h
  have hm1 := merge_register_branch form rt now1 db h
  obtain ⟨y, hyf, hyid⟩ :
      ∃ y, findAccount
        { accounts := db.accounts ++
            [{ id := db.nextAccountId, name := form.name.value, email := form.email.value,
               password := some NO_PASSWORD, is_admin := false, last_login := some now1 }],
          identities := db.identities ++
            [{ id := db.nextIdentityId, account_id := db.nextAccountId,
               provider := form.provider, username := form.username,
               name := some form.name.value, refresh_token := rt }],
          nextAccountId := db.nextAccountId + 1,
          nextIdentityId := db.nextIdentityId + 1 } db.nextAccountId = some y ∧
        y.id = db.nextAccountId := by
    unfold findAccount
    exact find_by_id_exists _ db.nextAccountId
      { id := db.nextAccountId, name := form.name.value, email := form.email.value,
        password := some NO_PASSWORD, is_admin := false, last_login := some now1 }
      (by simp) rfl
  have hlk2 : linkedAccountId
      { accounts := db.accounts ++
          [{ id := db.nextAccountId, name := form.name.value, email := form.email.value,
             password := some NO_PASSWORD, is_admin := false, last_login := some now1 }],
        identities := db.identities ++
          [{ id := db.nextIdentityId, account_id := db.nextAccountId,
             provider := form.provider, username := form.username,
             name := some form.name.value, refresh_token := rt }],
        nextAccountId := db.nextAccountId + 1,
        nextIdentityId := db.nextIdentityId + 1 } form.provider form.username =
      some db.nextAccountId := by
    unfold linkedAccountId
    simp only []
    rw [List.find?_append, hfind]
    simp [List.find?]
  have hm2 := merge_login_branch form rt now2 _ db.nextAccountId y hlk2 hyf
  refine ⟨_, _, _, _, hm1, rfl, by simp, by simp, hm2, hyid, rfl, by simp, ?_⟩
  exact accounts_map_id_last_login _ db.nextAccountId now2

/-- C5 witness: the Register-then-Login sequence at a concrete empty
database. -/
theorem c5_witness :
    ∃ u1 db1 u2 db2,
      merge_identity_and_login c5Form none none 10 c5Db = (.ok u1, db1) ∧
      u1.id = c5Db.nextAccountId ∧
      db1.accounts.length = c5Db.accounts.length + 1 ∧
      db1.identities.length = c5Db.identities.length + 1 ∧
      merge_identity_and_login c5Form none none 20 db1 = (.ok u2, db2) ∧
      u2.id = u1.id ∧
      db2.identities = db1.identities ∧
      db2.accounts.length = db1.accounts.length ∧
      db2.accounts.map Account.id = db1.accounts.map Account.id :=
  c5_register_then_login c5Form none 10 20 c5Db (by decide)

/-- C1 counterexample: in a state where (github, u) is linked to account
1 and account 2 also exists, the two calls with current account 1 and
current account 2 agree on both boolean axes (identity linked, current
account present) yet one succeeds (Merge) and the other fails with the
different-account error — so the outcome is not decided solely by the two
boolean axes and the four listed branches are not exhaustive. -/
theorem c1_counterexample :
    linkedAccountId c1Db c1Form.provider c1Form.username = some 1 ∧
    (merge_identity_and_login c1Form none (some 1) 7 c1Db).1 =
      .ok { id := 1, name := "NewName", is_admin := false, is_anonymous := false } ∧
    (merge_identity_and_login c1Form none (some 2) 7 c1Db).1 =
      .error (.generic "The provider account is linked to a different account") :=
  ⟨by decide, rfl, rfl⟩

/-- C1 amended: the outcome of merge_identity_and_login is decided by the
two boolean axes plus, when both an identity link and a current account
are present, whether they coincide: linked and no current account updates
the linked account's last_login and returns it (Login); unlinked and no
current account inserts a new account with the no-password sentinel and a
new identity row pointing to it (Register); linked to the current account
itself updates its name and last_login (Merge); linked to a different
account fails with the different-account error and no writes (Reject);
unlinked with a current account updates its last_login and inserts a new
identity row linking it (Link-Additional); these five branches are
mutually exclusive and exhaustive, and every returned user carries the
underlying account's id, name and admin flag with is_anonymous = false. -/
theorem c1_amended_state_machine (form : LinkIdentityForm) (rt : Option String)
    (cur : Option Int) (now : Nat) (db : DbState) :
    (∀ lid y, linkedAccountId db form.provider form.username = some lid → cur = none →
        findAccount db lid = some y →
        merge_identity_and_login form rt cur now db =
          (.ok { id := y.id, name := y.name, is_admin := y.is_admin, is_anonymous := false },
           { db with accounts := db.accounts.map (fun b =>
               if b.id == lid then { b with last_login := some now } else b) })) ∧
    (linkedAccountId db form.provider form.username = none → cur = none →
        merge_identity_and_login form rt cur now db =
          (.ok { id := db.nextAccountId, name := form.name.value, is_admin := false,
                 is_anonymous := false },
           { accounts := db.accounts ++
               [{ id := db.nextAccountId, name := form.name.value, email := form.email.value,
                  password := some NO_PASSWORD, is_admin := false, last_login := some now }],
             identities := db.identities ++
               [{ id := db.nextIdentityId, account_id := db.nextAccountId,
                  provider := form.provider, username := form.username,
                  name := some form.name.value, refresh_token := rt }],
             nextAccountId := db.nextAccountId + 1,
             nextIdentityId := db.nextIdentityId + 1 })) ∧
    (∀ lid y, linkedAccountId db form.provider form.username = some lid → cur = some lid →
        findAccount db lid = some y →
        merge_identity_and_login form rt cur now db =
          (.ok { id := y.id, name := form.name.value, is_admin := y.is_admin,
                 is_anonymous := false },
           { db with accounts := db.accounts.map (fun b =>
               if b.id == lid then { b with name := form.name.value, last_login := some now }
               else b) })) ∧
    (∀ lid aid, linkedAccountId db form.provider form.username = some lid → cur = some aid →
        lid ≠ aid →
        merge_identity_and_login form rt cur now db =
          (.error (.generic "The provider account is linked to a different account"), db)) ∧
    (∀ aid y, linkedAccountId db form.provider form.username = none → cur = some aid →
        findAccount db aid = some y →
        merge_identity_and_login form rt cur now db =
          (.ok { id := y.id, name := y.name, is_admin := y.is_admin, is_anonymous := false },
           { db with
               accounts := db.accounts.map (fun b =>
                 if b.id == aid then { b with last_login := some now } else b),
               identities := db.identities ++
                 [{ id := db.nextIdentityId, account_id := aid, provider := form.provider,
                    username := form.username, name := some form.name.value,
                    refresh_token := rt }],
               nextIdentityId := db.nextIdentityId + 1 })) ∧
    (∀ u db2, merge_identity_and_login form rt cur now db = (.ok u, db2) →
        u.is_anonymous = false) := by
  refine ⟨?_, ?_, ?_, ?_, ?_, ?_⟩
  · intro lid y hlk hcur hy
    subst hcur
    exact merge_login_branch form rt now db lid y hlk hy
  · intro hlk hcur
    subst hcur
    exact merge_register_branch form rt now db hlk
  · intro lid y hlk hcur hy
    subst hcur
    exact merge_merge_branch form rt now db lid y hlk hy
  · intro lid aid hlk hcur hne
    subst hcur
    exact merge_reject_branch form rt now db lid aid hlk hne
  · intro aid y hlk hcur hy
    subst hcur
    exact merge_link_branch form rt now db aid y hlk hy
  · intro u db2 hm
    exact merge_ok_is_anonymous form rt cur now db u db2 hm

/-- C1 witness: the Merge branch at the concrete C1 state (current
account 1, identity linked to account 1). -/
theorem c1_witness :
    merge_identity_and_login c1Form none (some 1) 7 c1Db =
      (.ok { id := 1, name := "NewName", is_admin := false, is_anonymous := false },
       { c1Db with accounts := c1Db.accounts.map (fun b =>
           if b.id == (1 : Int) then { b with name := "NewName", last_login := some 7 }
           else b) }) :=
  (c1_amended_state_machine c1Form none (some 1) 7 c1Db).2.2.1 1
    { id := 1, name := "One", email := "one@x.com", password := some "h1",
      is_admin := false, last_login := none }
    (by decide) rfl (by decide)

/-- C9: in confirm_identity with an anonymous caller, the current
account id is resolved by looking up the submitted email in the accounts
table; for an unlinked provider identity whose confirmed email matches an
existing account, the call takes the Link-Additional branch — the
identity row is attached to that account (no password is involved
anywhere on this path) and that account is returned as the authenticated,
non-anonymous user. -/
theorem c9_anonymous_email_link (form : LinkIdentityForm) (su : User) (sess : Session)
    (now : Nat) (db : DbState) (acct : Account)
    (hanon : su.is_anonymous = true)
    (hemail : db.accounts.find? (fun a => a.email == form.email.value) = some acct)
    (hunlinked : linkedAccountId db form.provider form.username = none) :
    ∃ u db2,
      confirm_identity true form su sess now db = (.success u, db2) ∧
      u.id = acct.id ∧
      u.is_anonymous = false ∧
      db2.identities = db.identities ++
        [{ id := db.nextIdentityId, account_id := acct.id, provider := form.provider,
           username := form.username, name := some form.name.value,
           refresh_token := sess.oauth_token }] ∧
      db2.accounts.map Account.id = db.accounts.map Account.id := by
  have hidemail : id_by_email form.email.value db = .ok acct.id := by
    unfold id_by_email
    rw [hemail]
  obtain ⟨y, hyf, hyid⟩ : ∃ y, findAccount db acct.id = some y ∧ y.id = acct.id := by
    unfold findAccount
    exact find_by_id_exists db.accounts acct.id acct (List.mem_of_find?_eq_some hemail) rfl
  have hm := merge_link_branch form sess.oauth_token now db acct.id y hunlinked hyf
  refine ⟨{ id := y.id, name := y.name, is_admin := y.is_admin, is_anonymous := false },
          { db with
              accounts := db.accounts.map (fun b =>
                if b.id == acct.id then { b with last_login := some now } else b),
              identities := db.identities ++
                [{ id := db.nextIdentityId, account_id := acct.id, provider := form.provider,
                   username := form.username, name := some form.name.value,
                   refresh_token := sess.oauth_token }],
              nextIdentityId := db.nextIdentityId + 1 },
          ?_, hyid, rfl, rfl, ?_⟩
  · simp [confirm_identity, hanon, hidemail, Except.toOption, hm]
  · exact accounts_map_id_last_login db.accounts acct.id now

/-- C9 witness: the anonymous email-based Link-Additional resolution at a
concrete database holding one account with the confirmed email. -/
theorem c9_witness :
    ∃ u db2,
      confirm_identity true c9Form c9User c9Sess 3 c9Db = (.success u, db2) ∧
      u.id = c9Acct.id ∧
      u.is_anonymous = false ∧
      db2.identities = c9Db.identities ++
        [{ id := c9Db.nextIdentityId, account_id := c9Acct.id, provider := c9Form.provider,
           username := c9Form.username, name := some c9Form.name.value,
           refresh_token := c9Sess.oauth_token }] ∧
      db2.accounts.map Account.id = c9Db.accounts.map Account.id :=
  c9_anonymous_email_link c9Form c9User c9Sess 3 c9Db c9Acct rfl (by decide) rfl

/-- C7 counterexample: a GitHub user-info payload that omits the name
field does not decode with an empty-string name — the deserializer
requires the field and fails, contradicting the claimed fallback. -/
theorem c7_counterexample :
    github_de (.obj [("id", .num 1), ("login", .str "u")]) "hint@x.com" =
      .error "missing field name" := rfl

/-- C7 amended: the GitHub decoder maps the integer id to its decimal
string, the login field to username, treats email as optional (absent
email decodes with provider_email none, present email is carried over)
and attaches the login-email hint; the name field is required, so a
payload omitting it fails to decode (there is no empty-string fallback). -/
theorem c7_amended_github_decoder (i : Int) (nm lg em hint : String)
    (hrange : -2147483648 ≤ i ∧ i ≤ 2147483647) :
    github_de (.obj [("id", .num i), ("name", .str nm), ("login", .str lg)]) hint =
      .ok { provider := "github", id := toString i, name := nm, username := lg,
            login_email := hint, provider_email := none } ∧
    github_de (.obj [("id", .num i), ("name", .str nm), ("login", .str lg),
        ("email", .str em)]) hint =
      .ok { provider := "github", id := toString i, name := nm, username := lg,
            login_email := hint, provider_email := some em } ∧
    github_de (.obj [("id", .num i), ("login", .str lg)]) hint =
      .error "missing field name" := by
  have hid : ∀ rest : List (String × Json),
      reqI32 (("id", Json.num i) :: rest) "id" = .ok i := by
    intro rest
    simp [reqI32, jsonGet, List.find?, hrange]
  refine ⟨?_, ?_, ?_⟩
  · simp [github_de, decodeGithubUserInfo, hid, reqStr, optStr, jsonGet, List.find?,
      githubToUserInfo, set_email, Except.map, Bind.bind, Except.bind]
  · simp [github_de, decodeGithubUserInfo, hid, reqStr, optStr, jsonGet, List.find?,
      githubToUserInfo, set_email, Except.map, Bind.bind, Except.bind]
  · simp [github_de, decodeGithubUserInfo, hid, reqStr, optStr, jsonGet, List.find?,
      githubToUserInfo, set_email, Except.map, Bind.bind, Except.bind]

/-- C7 witness: the amended decoder behavior at a concrete payload. -/
theorem c7_witness :
    github_de (.obj [("id", .num 123), ("name", .str "Octo Cat"),
        ("login", .str "octocat")]) "hint@x.com" =
      .ok { provider := "github", id := "123", name := "Octo Cat", username := "octocat",
            login_email := "hint@x.com", provider_email := none } :=
  (c7_amended_github_decoder 123 "Octo Cat" "octocat" "e" "hint@x.com" (by decide)).1

/-- C2: callback validation short-circuits in the exact source order — a
missing or corrupt session flow gives ParseSessionError regardless of the
query; with a flow present, a provider error parameter is surfaced first
as GrantAuthorizationError; state verification happens only once both
state and code are present; any state differing from the stored CSRF
secret gives VerifyStateError while an equal one proceeds; an unresolvable
provider key gives ParseSessionError; on success the resolved client is
paired with the flow whose authorization code is taken from the query. -/
theorem c2_callback_validation_order (resolve : String → Option ScopedClient) (s : Session)
    (q : AuthRequest) :
    (s.oauth_flow = .empty → (validate_inputs resolve s q).1 = .error .ParseSessionError) ∧
    (s.oauth_flow = .corrupt → (validate_inputs resolve s q).1 = .error .ParseSessionError) ∧
    (∀ flow e, s.oauth_flow = .stored flow → q.error = some e →
        (validate_inputs resolve s q).1 = .error (.GrantAuthorizationError e)) ∧
    (∀ flow, s.oauth_flow = .stored flow → q.error = none →
        (q.state = none ∨ q.code = none) →
        (validate_inputs resolve s q).1 = .error .ParseRequestError) ∧
    (∀ flow st c, s.oauth_flow = .stored flow → q.error = none → q.state = some st →
        q.code = some c → st ≠ flow.csrf_token_secret →
        (validate_inputs resolve s q).1 = .error .VerifyStateError) ∧
    (∀ flow c, s.oauth_flow = .stored flow → q.error = none →
        q.state = some flow.csrf_token_secret → q.code = some c →
        resolve flow.provider = none →
        (validate_inputs resolve s q).1 = .error .ParseSessionError) ∧
    (∀ flow c client, s.oauth_flow = .stored flow → q.error = none →
        q.state = some flow.csrf_token_secret → q.code = some c →
        resolve flow.provider = some client →
        (validate_inputs resolve s q).1 =
          .ok { client := client, flow := flow.set_authorization_code c }) := by
  refine ⟨?_, ?_, ?_, ?_, ?_, ?_, ?_⟩
  · intro hf
    simp [validate_inputs, hf]
  · intro hf
    simp [validate_inputs, hf]
  · intro flow e hf he
    simp [validate_inputs, hf, he]
  · intro flow hf he hmiss
    rcases hmiss with h | h
    · cases hc : q.code <;> simp [validate_inputs, hf, he, h, hc]
    · cases hs : q.state <;> simp [validate_inputs, hf, he, h, hs]
  · intro flow st c hf he hst hc hne
    simp [validate_inputs, hf, he, hst, hc, hne]
  · intro flow c hf he hst hc hr
    simp [validate_inputs, hf, he, hst, hc, hr]
  · intro flow c client hf he hst hc hr
    simp [validate_inputs, hf, he, hst, hc, hr]

/-- C2 witness: concrete runs through the state-mismatch branch (one
character changed in the state) and the success branch (identical state,
resolvable provider). -/
theorem c2_witness :
    (validate_inputs (fun _ => none)
        { oauth_flow := .stored c2Flow, oauth_token := some "t" }
        { code := some "AC", state := some "CSRFSECREX", error := none }).1 =
      .error .VerifyStateError ∧
    (validate_inputs (fun _ => some (build_generic_oauth (fun v => v)
          (ClientConfig.mk "r" "i" none "a" "t" none [] none "u" [] [] .github)))
        { oauth_flow := .stored c2Flow, oauth_token := some "t" }
        { code := some "AC", state := some "CSRFSECRET", error := none }).1 =
      .ok { client := build_generic_oauth (fun v => v)
              (ClientConfig.mk "r" "i" none "a" "t" none [] none "u" [] [] .github),
            flow := c2Flow.set_authorization_code "AC" } := by
  constructor
  · exact (c2_callback_validation_order (fun _ => none)
      { oauth_flow := .stored c2Flow, oauth_token := some "t" }
      { code := some "AC", state := some "CSRFSECREX", error := none }).2.2.2.2.1
      c2Flow "CSRFSECREX" "AC" rfl rfl rfl rfl (by decide)
  · exact (c2_callback_validation_order (fun _ => some (build_generic_oauth (fun v => v)
        (ClientConfig.mk "r" "i" none "a" "t" none [] none "u" [] [] .github)))
      { oauth_flow := .stored c2Flow, oauth_token := some "t" }
      { code := some "AC", state := some "CSRFSECRET", error := none }).2.2.2.2.2.2
      c2Flow "AC" (build_generic_oauth (fun v => v)
        (ClientConfig.mk "r" "i" none "a" "t" none [] none "u" [] [] .github))
      rfl rfl rfl rfl rfl
